import Mathlib

/-!
Shallow embedding of the stress-detection logic of the repository
(src/whatsappfinal.py and src/gemini_chatbot.py).

Stress levels and feature values are modelled as exact rationals (ℚ);
the Python code computes with floats, but every claim here is about the
arithmetic relationships of the code, which are stated and settled in
exact arithmetic.
-/

namespace WhatsappFinal

/-- Field `IntegratedStressDetector.panic_threshold` (whatsappfinal.py line 60). -/
def panic_threshold : ℚ := 7/10

/-- Field `IntegratedStressDetector.high_stress_threshold` (whatsappfinal.py line 61). -/
def high_stress_threshold : ℚ := 1/2

/-- The weighted-average fusion of `analyze_combined_stress` (line 77):
`combined_level = (audio_stress_level * 0.4) + (motion_stress_level * 0.6)`. -/
def combineLevels (audio_stress_level motion_stress_level : ℚ) : ℚ :=
  audio_stress_level * (2/5) + motion_stress_level * (3/5)

/-- The description ladder of `analyze_combined_stress` (lines 84-87),
identical to the one in `detect_stress` (lines 262-265). -/
def describeLevel (level : ℚ) : String :=
  if level < 3/10 then "Calm"
  else if level < 1/2 then "Mild Stress"
  else if level < 7/10 then "Moderate Stress"
  else if level < 9/10 then "High Stress"
  else "Panic"

/-- Result tuple of `analyze_combined_stress`:
`(is_panic, is_high_stress, combined_level, description)`. -/
structure CombinedAnalysis where
  is_panic : Bool
  is_high_stress : Bool
  combined_level : ℚ
  description : String
deriving DecidableEq, Repr

/-- Method `IntegratedStressDetector.analyze_combined_stress` (lines 63-89).
The boolean `audio_stress_detected` parameter is taken exactly as in the
source, where it appears in the signature but not in the body. -/
def analyze_combined_stress (audio_stress_detected : Bool)
    (audio_stress_level motion_stress_level : ℚ) : CombinedAnalysis :=
  let combined_level := combineLevels audio_stress_level motion_stress_level
  { is_panic := decide (combined_level ≥ panic_threshold)
    is_high_stress := decide (combined_level ≥ high_stress_threshold)
    combined_level := combined_level
    description := describeLevel combined_level }

/-- The action branch of `run_detection` (lines 141-152): panic and
high-stress both invoke `_handle_stress_detection` (location resolution
and map opening), anything else only reports. -/
inductive ActionDecision where
  | Triggered (is_panic : Bool)
  | Settled
deriving DecidableEq, Repr

/-- The decision taken by `run_detection` from the combined analysis:
`if is_panic: _handle_stress_detection(True) elif is_high_stress:
_handle_stress_detection(False) else: (report only)`. -/
def run_detection_action (r : CombinedAnalysis) : ActionDecision :=
  if r.is_panic then .Triggered true
  else if r.is_high_stress then .Triggered false
  else .Settled

/-- Whether `run_detection` invokes the location-resolution / map-opening
collaborator (`_handle_stress_detection`). -/
def actionInvoked (r : CombinedAnalysis) : Bool :=
  match run_detection_action r with
  | .Triggered _ => true
  | .Settled => false

/-- Audio features extracted by `extract_features`
(pitch, energy, zero-crossing rate, spectral centroid means). -/
structure AudioFeatures where
  pitch_mean : ℚ
  energy_mean : ℚ
  zcr_mean : ℚ
  spectral_centroid_mean : ℚ
deriving DecidableEq, Repr

/-- Per-feature clip-linear stress contribution, the shape
`min(1.0, max(0.0, (raw - baseline) / range))` used four times in
`IntegratedStressDetector.detect_stress` (lines 234, 240, 246, 252). -/
def clipLinear (raw baseline range : ℚ) : ℚ :=
  min 1 (max 0 ((raw - baseline) / range))

/-- Term `pitch_stress` (line 234): baseline 130, range 50. -/
def pitch_stress (f : AudioFeatures) : ℚ := clipLinear f.pitch_mean 130 50

/-- Term `energy_stress` (line 240): baseline 0.5, range 0.5. -/
def energy_stress (f : AudioFeatures) : ℚ := clipLinear f.energy_mean (1/2) (1/2)

/-- Term `zcr_stress` (line 246): baseline 0.08, range 0.12. -/
def zcr_stress (f : AudioFeatures) : ℚ := clipLinear f.zcr_mean (8/100) (12/100)

/-- Term `spectral_stress` (line 252): baseline 1800, range 700. -/
def spectral_stress (f : AudioFeatures) : ℚ := clipLinear f.spectral_centroid_mean 1800 700

/-- Term `overall_stress` (line 258): average of the four per-feature levels. -/
def overall_stress (f : AudioFeatures) : ℚ :=
  (pitch_stress f + energy_stress f + zcr_stress f + spectral_stress f) / 4

/-- Method `IntegratedStressDetector.detect_stress` (lines 212-274), returning
`(is_stressed, stress_level, description)`. A `none` argument models the
feature-extraction failure paths (features is None at line 220, or an
exception caught at line 272): both return level 0.0 and not stressed. -/
def detect_stress (features : Option AudioFeatures) : Bool × ℚ × String :=
  match features with
  | none => (false, 0, "No audio features detected")
  | some f =>
      let overall := overall_stress f
      (decide (overall > 3/10), overall, describeLevel overall)

end WhatsappFinal

namespace GeminiChatbot

/-- Motion/activity rates computed by `stop_motion_tracking`
(gemini_chatbot.py lines 575-577). -/
structure MotionData where
  mouse_movement_rate : ℚ
  mouse_click_rate : ℚ
  key_press_rate : ℚ
deriving DecidableEq, Repr

/-- Pitch check of `detect_stress` (line 167): `features['pitch_mean'] > 150`. -/
def pitch_indicator (f : WhatsappFinal.AudioFeatures) : Bool :=
  decide (f.pitch_mean > 150)

/-- Energy check of `detect_stress` (line 172): `features['energy_mean'] > 0.7`. -/
def energy_indicator (f : WhatsappFinal.AudioFeatures) : Bool :=
  decide (f.energy_mean > 7/10)

/-- Zero-crossing-rate check of `detect_stress` (line 177):
`features['zcr_mean'] > 0.1`. -/
def zcr_indicator (f : WhatsappFinal.AudioFeatures) : Bool :=
  decide (f.zcr_mean > 1/10)

/-- Spectral-centroid check of `detect_stress` (line 182):
`features['spectral_centroid_mean'] > 2000`. -/
def centroid_indicator (f : WhatsappFinal.AudioFeatures) : Bool :=
  decide (f.spectral_centroid_mean > 2000)

/-- Indicator count `stress_indicators` of `detect_stress`
(gemini_chatbot.py lines 164-185): one strict-`>` check per feature. -/
def audio_stress_indicators (f : WhatsappFinal.AudioFeatures) : ℕ :=
  (if pitch_indicator f then 1 else 0)
  + (if energy_indicator f then 1 else 0)
  + (if zcr_indicator f then 1 else 0)
  + (if centroid_indicator f then 1 else 0)

/-- Verdict of `detect_stress` (gemini_chatbot.py lines 187-190):
`is_stressed = stress_indicators >= 2`. -/
def audio_detect_stress (f : WhatsappFinal.AudioFeatures) : Bool :=
  decide (audio_stress_indicators f ≥ 2)

/-- Mouse-movement check of `analyze_motion_data` (line 607):
`motion_data['mouse_movement_rate'] > high_movement_threshold` (10/s). -/
def movement_indicator (m : MotionData) : Bool :=
  decide (m.mouse_movement_rate > 10)

/-- Mouse-click check of `analyze_motion_data` (line 612):
`motion_data['mouse_click_rate'] > high_click_threshold` (2/s). -/
def click_indicator (m : MotionData) : Bool :=
  decide (m.mouse_click_rate > 2)

/-- Key-press check of `analyze_motion_data` (line 617):
`motion_data['key_press_rate'] > high_keypress_threshold` (5/s). -/
def keypress_indicator (m : MotionData) : Bool :=
  decide (m.key_press_rate > 5)

/-- Indicator count `stress_indicators` of `analyze_motion_data`
(gemini_chatbot.py lines 597-620): one strict-`>` check per rate,
against thresholds 10, 2 and 5 per second. -/
def motion_stress_indicators (m : MotionData) : ℕ :=
  (if movement_indicator m then 1 else 0)
  + (if click_indicator m then 1 else 0)
  + (if keypress_indicator m then 1 else 0)

/-- Verdict of `analyze_motion_data` (gemini_chatbot.py lines 627-630):
`is_stressed = stress_indicators >= 1`. -/
def analyze_motion_data (m : MotionData) : Bool :=
  decide (motion_stress_indicators m ≥ 1)

/-- Event counts accumulated by the listeners before
`stop_motion_tracking` runs. -/
structure MotionCounts where
  mouse_movements : ℕ
  mouse_clicks : ℕ
  key_presses : ℕ
deriving DecidableEq, Repr

/-- Rate computation of `stop_motion_tracking` (lines 575-577):
`count / duration if duration > 0 else 0`. -/
def rateOf (count : ℕ) (duration : ℚ) : ℚ :=
  if duration > 0 then (count : ℚ) / duration else 0

/-- Function `stop_motion_tracking` (gemini_chatbot.py lines 562-579), restricted
to its pure rate computation over the elapsed duration in seconds. -/
def stop_motion_tracking (c : MotionCounts) (duration : ℚ) : MotionData :=
  { mouse_movement_rate := rateOf c.mouse_movements duration
    mouse_click_rate := rateOf c.mouse_clicks duration
    key_press_rate := rateOf c.key_presses duration }

end GeminiChatbot

namespace SpecModel

/-- Modelled from the spec: `CameraMotionDetector.analyze_stress` lives in
camera_motion_detector.py, which is not under src/. Per the spec's
CaptureFailure contract, "the affected modality is treated as absent
(level 0 / no indicators)": a failed motion capture contributes motion
stress level 0. -/
def motionLevelOnCaptureFailure : ℚ := 0

end SpecModel

open WhatsappFinal GeminiChatbot

/-- C1: the trigger decision is made directly from the numeric combined
level, not from the band name: `is_panic` holds iff the level reaches
`panic_threshold = 0.7`, `is_high_stress` holds iff it reaches
`high_stress_threshold = 0.5`, the location-resolution and map-opening
action is invoked iff the high-stress or panic condition holds, and a
combined level in [0.7, 0.9) is banded "High Stress" yet still triggers
the panic branch. -/
theorem C1_trigger_from_numeric_level (b : Bool) (v m : ℚ) :
    ((analyze_combined_stress b v m).is_panic = true ↔
      panic_threshold ≤ combineLevels v m)
    ∧ ((analyze_combined_stress b v m).is_high_stress = true ↔
      high_stress_threshold ≤ combineLevels v m)
    ∧ (actionInvoked (analyze_combined_stress b v m) = true ↔
      (high_stress_threshold ≤ combineLevels v m ∨ panic_threshold ≤ combineLevels v m))
    ∧ (panic_threshold ≤ combineLevels v m → combineLevels v m < 9/10 →
      (analyze_combined_stress b v m).description = "High Stress"
      ∧ (analyze_combined_stress b v m).is_panic = true) := by
  refine ⟨by simp [analyze_combined_stress, ge_iff_le],
          by simp [analyze_combined_stress, ge_iff_le], ?_, ?_⟩
  · by_cases hp : panic_threshold ≤ combineLevels v m <;>
      by_cases hh : high_stress_threshold ≤ combineLevels v m <;>
      simp [actionInvoked, run_detection_action, analyze_combined_stress,
        ge_iff_le, hp, hh]
  · intro hp hlt
    rw [panic_threshold] at hp
    constructor
    · simp only [analyze_combined_stress, describeLevel]
      split_ifs <;> first | rfl | (exfalso; linarith)
    · simp [analyze_combined_stress, ge_iff_le, panic_threshold, hp]

/-- C1 witness at concrete levels v = 0.8, m = 0.8 (combined 0.8, in
[0.7, 0.9)): the panic branch fires and the band is "High Stress". -/
theorem C1_trigger_from_numeric_level_witness :
    (analyze_combined_stress false (8/10) (8/10)).description = "High Stress"
    ∧ (analyze_combined_stress false (8/10) (8/10)).is_panic = true :=
  (C1_trigger_from_numeric_level false (8/10) (8/10)).2.2.2
    (by norm_num [panic_threshold, combineLevels])
    (by norm_num [combineLevels])

/-- C2: for levels in [0, 1] the fusion returns exactly
`v * 0.4 + m * 0.6`, and the returned combined level lies in [0, 1]
(in the exact arithmetic of the embedding the weighted sum of bounded
inputs is already in range, so the clamp invariant holds). -/
theorem C2_weighted_fusion_exact_and_bounded (b : Bool) (v m : ℚ)
    (h0v : 0 ≤ v) (hv1 : v ≤ 1) (h0m : 0 ≤ m) (hm1 : m ≤ 1) :
    (analyze_combined_stress b v m).combined_level = v * (2/5) + m * (3/5)
    ∧ 0 ≤ (analyze_combined_stress b v m).combined_level
    ∧ (analyze_combined_stress b v m).combined_level ≤ 1 := by
  refine ⟨rfl, ?_, ?_⟩ <;>
    simp only [analyze_combined_stress, combineLevels] <;> nlinarith

/-- C2 witness at v = 1, m = 1: the combined level is exactly
1 * 0.4 + 1 * 0.6 and lies in [0, 1]. -/
theorem C2_weighted_fusion_exact_and_bounded_witness :
    (analyze_combined_stress false 1 1).combined_level = 1 * (2/5) + 1 * (3/5)
    ∧ 0 ≤ (analyze_combined_stress false 1 1).combined_level
    ∧ (analyze_combined_stress false 1 1).combined_level ≤ 1 :=
  C2_weighted_fusion_exact_and_bounded false 1 1
    (by norm_num) (by norm_num) (by norm_num) (by norm_num)

/-- C3: the severity classifier partitions [0, 1] into exactly five
contiguous bands with no gaps or overlaps: level < 0.3 is "Calm",
[0.3, 0.5) is "Mild Stress", [0.5, 0.7) is "Moderate Stress",
[0.7, 0.9) is "High Stress", [0.9, 1] is "Panic"; in particular
classify(0) = Calm, classify(0.3) = Mild Stress, classify(1) = Panic. -/
theorem C3_severity_bands_partition (l : ℚ) (h0 : 0 ≤ l) (h1 : l ≤ 1) :
    (describeLevel l = "Calm" ↔ l < 3/10)
    ∧ (describeLevel l = "Mild Stress" ↔ 3/10 ≤ l ∧ l < 1/2)
    ∧ (describeLevel l = "Moderate Stress" ↔ 1/2 ≤ l ∧ l < 7/10)
    ∧ (describeLevel l = "High Stress" ↔ 7/10 ≤ l ∧ l < 9/10)
    ∧ (describeLevel l = "Panic" ↔ 9/10 ≤ l ∧ l ≤ 1)
    ∧ describeLevel 0 = "Calm"
    ∧ describeLevel (3/10) = "Mild Stress"
    ∧ describeLevel 1 = "Panic" := by
  refine ⟨?_, ?_, ?_, ?_, ?_,
    by norm_num [describeLevel], by norm_num [describeLevel],
    by norm_num [describeLevel]⟩ <;>
  · unfold describeLevel
    split_ifs with a b c d <;> simp <;>
      first
        | linarith
        | (constructor <;> linarith)
        | (rintro ⟨h, h'⟩ <;> linarith)
        | (intro h <;> linarith)

/-- C3 witness at l = 0.3: the classifier is defined there and the
lower bound of "Mild Stress" is inclusive. -/
theorem C3_severity_bands_partition_witness :
    describeLevel (3/10) = "Mild Stress" ∧ describeLevel 1 = "Panic" :=
  ⟨(C3_severity_bands_partition (3/10) (by norm_num) (by norm_num)).2.2.2.2.2.2.1,
   (C3_severity_bands_partition 1 (by norm_num) (by norm_num)).2.2.2.2.2.2.2⟩

/-- C4: the audio modality is declared stressed iff at least 2 of its 4
indicators are true (exactly 2 true indicators yield stressed, exactly 1
yields not stressed), and the motion/activity modality is declared
stressed iff at least 1 of its 3 indicators is true. -/
theorem C4_indicator_quorums (f : WhatsappFinal.AudioFeatures) (m : MotionData) :
    (audio_detect_stress f = true ↔ 2 ≤ audio_stress_indicators f)
    ∧ (audio_stress_indicators f = 2 → audio_detect_stress f = true)
    ∧ (audio_stress_indicators f = 1 → audio_detect_stress f = false)
    ∧ (analyze_motion_data m = true ↔ 1 ≤ motion_stress_indicators m) := by
  refine ⟨by simp [audio_detect_stress], ?_, ?_, by simp [analyze_motion_data]⟩ <;>
    intro h <;> simp [audio_detect_stress, h]

/-- C4 witness: a feature vector with exactly 2 true indicators (pitch
and spectral centroid) is declared stressed, and a motion sample with
exactly 1 true indicator (movement rate) is declared stressed. -/
theorem C4_indicator_quorums_witness :
    audio_detect_stress ⟨151, 0, 0, 2001⟩ = true
    ∧ analyze_motion_data ⟨11, 0, 0⟩ = true :=
  ⟨(C4_indicator_quorums ⟨151, 0, 0, 2001⟩ ⟨11, 0, 0⟩).2.1
      (by norm_num [audio_stress_indicators, pitch_indicator, energy_indicator,
        zcr_indicator, centroid_indicator]),
   (C4_indicator_quorums ⟨151, 0, 0, 2001⟩ ⟨11, 0, 0⟩).2.2.2.mpr
      (by norm_num [motion_stress_indicators, movement_indicator,
        click_indicator, keypress_indicator])⟩

/-- C5: each per-descriptor indicator is true iff the raw value strictly
exceeds its fixed cutoff (pitch 150, energy 0.7, zcr 0.1, spectral
centroid 2000; movement 10/s, clicks 2/s, keypresses 5/s), and a value
exactly at the cutoff counts as not stressed. -/
theorem C5_strict_cutoffs (f : WhatsappFinal.AudioFeatures) (m : MotionData) :
    (pitch_indicator f = true ↔ 150 < f.pitch_mean)
    ∧ (energy_indicator f = true ↔ 7/10 < f.energy_mean)
    ∧ (zcr_indicator f = true ↔ 1/10 < f.zcr_mean)
    ∧ (centroid_indicator f = true ↔ 2000 < f.spectral_centroid_mean)
    ∧ (movement_indicator m = true ↔ 10 < m.mouse_movement_rate)
    ∧ (click_indicator m = true ↔ 2 < m.mouse_click_rate)
    ∧ (keypress_indicator m = true ↔ 5 < m.key_press_rate)
    ∧ (f.pitch_mean = 150 → pitch_indicator f = false)
    ∧ (f.energy_mean = 7/10 → energy_indicator f = false)
    ∧ (f.zcr_mean = 1/10 → zcr_indicator f = false)
    ∧ (f.spectral_centroid_mean = 2000 → centroid_indicator f = false)
    ∧ (m.mouse_movement_rate = 10 → movement_indicator m = false)
    ∧ (m.mouse_click_rate = 2 → click_indicator m = false)
    ∧ (m.key_press_rate = 5 → keypress_indicator m = false) := by
  refine ⟨by simp [pitch_indicator], by simp [energy_indicator],
    by simp [zcr_indicator], by simp [centroid_indicator],
    by simp [movement_indicator], by simp [click_indicator],
    by simp [keypress_indicator], ?_, ?_, ?_, ?_, ?_, ?_, ?_⟩ <;>
  · intro h
    simp [pitch_indicator, energy_indicator, zcr_indicator, centroid_indicator,
      movement_indicator, click_indicator, keypress_indicator, h]

/-- C5 witness: with every descriptor exactly at its cutoff, all seven
indicators are false. -/
theorem C5_strict_cutoffs_witness :
    pitch_indicator ⟨150, 7/10, 1/10, 2000⟩ = false
    ∧ energy_indicator ⟨150, 7/10, 1/10, 2000⟩ = false
    ∧ zcr_indicator ⟨150, 7/10, 1/10, 2000⟩ = false
    ∧ centroid_indicator ⟨150, 7/10, 1/10, 2000⟩ = false
    ∧ movement_indicator ⟨10, 2, 5⟩ = false
    ∧ click_indicator ⟨10, 2, 5⟩ = false
    ∧ keypress_indicator ⟨10, 2, 5⟩ = false := by
  have h := C5_strict_cutoffs ⟨150, 7/10, 1/10, 2000⟩ ⟨10, 2, 5⟩
  exact ⟨h.2.2.2.2.2.2.2.1 rfl, h.2.2.2.2.2.2.2.2.1 rfl,
    h.2.2.2.2.2.2.2.2.2.1 rfl, h.2.2.2.2.2.2.2.2.2.2.1 rfl,
    h.2.2.2.2.2.2.2.2.2.2.2.1 rfl, h.2.2.2.2.2.2.2.2.2.2.2.2.1 rfl,
    h.2.2.2.2.2.2.2.2.2.2.2.2.2 rfl⟩

/-- C6: every continuous descriptor contribution equals
`clip01((raw - baseline) / range)` — 0 at or below the baseline, 1 at or
above baseline + range, linear between — and the four descriptors use
the fixed pairs pitch (130, 50), energy (0.5, 0.5), zcr (0.08, 0.12),
spectral centroid (1800, 700). -/
theorem C6_clip_linear_contributions (raw baseline range : ℚ) (hr : 0 < range)
    (f : WhatsappFinal.AudioFeatures) :
    (raw ≤ baseline → clipLinear raw baseline range = 0)
    ∧ (baseline + range ≤ raw → clipLinear raw baseline range = 1)
    ∧ (baseline ≤ raw → raw ≤ baseline + range →
        clipLinear raw baseline range = (raw - baseline) / range)
    ∧ pitch_stress f = clipLinear f.pitch_mean 130 50
    ∧ energy_stress f = clipLinear f.energy_mean (1/2) (1/2)
    ∧ zcr_stress f = clipLinear f.zcr_mean (8/100) (12/100)
    ∧ spectral_stress f = clipLinear f.spectral_centroid_mean 1800 700 := by
  refine ⟨?_, ?_, ?_, rfl, rfl, rfl, rfl⟩
  · intro h
    have hx : (raw - baseline) / range ≤ 0 :=
      div_nonpos_iff.mpr (Or.inr ⟨by linarith, hr.le⟩)
    rw [clipLinear, max_eq_left hx, min_eq_right (by norm_num : (0:ℚ) ≤ 1)]
  · intro h
    have hx : 1 ≤ (raw - baseline) / range :=
      (le_div_iff₀ hr).mpr (by linarith)
    rw [clipLinear, max_eq_right (by linarith : (0:ℚ) ≤ (raw - baseline) / range),
      min_eq_left hx]
  · intro h h'
    have h0 : 0 ≤ (raw - baseline) / range := div_nonneg (by linarith) hr.le
    have h1 : (raw - baseline) / range ≤ 1 := (div_le_one hr).mpr (by linarith)
    rw [clipLinear, max_eq_right h0, min_eq_right h1]

/-- C6 witness: at pitch 155 (between baseline 130 and 130 + 50 = 180)
the pitch contribution is linear: (155 - 130) / 50 = 1/2. -/
theorem C6_clip_linear_contributions_witness :
    pitch_stress ⟨155, 0, 0, 0⟩ = clipLinear 155 130 50
    ∧ clipLinear 155 130 50 = (155 - 130) / 50 := by
  have h := C6_clip_linear_contributions 155 130 50 (by norm_num) ⟨155, 0, 0, 0⟩
  exact ⟨h.2.2.2.1, h.2.2.1 (by norm_num) (by norm_num)⟩

/-- C7: a failed feature extraction makes the modality absent (level 0,
not stressed) and the run stays computable: with audio level 0.9 and a
failed motion modality the combined level is exactly
0.9 * 0.4 + 0 * 0.6 = 0.36, banded "Mild Stress", with no trigger. -/
theorem C7_capture_failure_absent_modality (b : Bool) :
    detect_stress none = (false, 0, "No audio features detected")
    ∧ (analyze_combined_stress b (9/10)
        SpecModel.motionLevelOnCaptureFailure).combined_level = 36/100
    ∧ (analyze_combined_stress b (9/10)
        SpecModel.motionLevelOnCaptureFailure).description = "Mild Stress"
    ∧ (analyze_combined_stress b (9/10)
        SpecModel.motionLevelOnCaptureFailure).is_panic = false := by
  refine ⟨rfl, ?_, ?_, ?_⟩ <;>
    norm_num [analyze_combined_stress, combineLevels, describeLevel,
      panic_threshold, SpecModel.motionLevelOnCaptureFailure]

/-- C7 witness at a concrete boolean flag: the combined level of the
degraded run is exactly 0.36. -/
theorem C7_capture_failure_absent_modality_witness :
    (analyze_combined_stress false (9/10)
      SpecModel.motionLevelOnCaptureFailure).combined_level = 36/100
    ∧ (analyze_combined_stress false (9/10)
      SpecModel.motionLevelOnCaptureFailure).description = "Mild Stress" :=
  ⟨(C7_capture_failure_absent_modality false).2.1,
   (C7_capture_failure_absent_modality false).2.2.1⟩

/-- C8: the weighted fusion is monotonically non-decreasing in each
argument and satisfies combine(0,0) = 0 and combine(1,1) = 1. -/
theorem C8_fusion_monotone_and_units (v v' m m' : ℚ)
    (hv : v ≤ v') (hm : m ≤ m') :
    combineLevels v m ≤ combineLevels v' m
    ∧ combineLevels v m ≤ combineLevels v m'
    ∧ combineLevels 0 0 = 0
    ∧ combineLevels 1 1 = 1 := by
  refine ⟨?_, ?_, by norm_num [combineLevels], by norm_num [combineLevels]⟩ <;>
    simp only [combineLevels] <;> nlinarith

/-- C8 witness: monotonicity from (0,0) to (1,0), and the unit law at
(1,1). -/
theorem C8_fusion_monotone_and_units_witness :
    combineLevels 0 0 ≤ combineLevels 1 0 ∧ combineLevels 1 1 = 1 :=
  ⟨(C8_fusion_monotone_and_units 0 1 0 1 (by norm_num) (by norm_num)).1,
   (C8_fusion_monotone_and_units 0 1 0 1 (by norm_num) (by norm_num)).2.2.2⟩

/-- C9: the combined-stress analysis does not depend on its boolean
`audio_stress_detected` argument — with equal numeric levels the whole
result record (is_panic, is_high_stress, combined_level, description) is
identical for any two values of the flag. -/
theorem C9_flag_noninterference (b b' : Bool) (v m : ℚ) :
    analyze_combined_stress b v m = analyze_combined_stress b' v m := rfl

/-- C9 witness at the two concrete flag values and levels (0.6, 0.2). -/
theorem C9_flag_noninterference_witness :
    analyze_combined_stress true (6/10) (2/10)
      = analyze_combined_stress false (6/10) (2/10) :=
  C9_flag_noninterference true false (6/10) (2/10)

/-- C10: when the elapsed duration is not strictly positive, all three
activity rates are 0 — the rate computation is division-guarded and
total. -/
theorem C10_rates_division_guarded (c : MotionCounts) (d : ℚ) (hd : d ≤ 0) :
    stop_motion_tracking c d =
      { mouse_movement_rate := 0, mouse_click_rate := 0, key_press_rate := 0 } := by
  have h : ¬ d > 0 := not_lt.mpr hd
  simp [stop_motion_tracking, rateOf, h]

/-- C10 witness: a zero-length window with nonzero event counts yields
all-zero rates rather than a division error. -/
theorem C10_rates_division_guarded_witness :
    stop_motion_tracking ⟨7, 3, 5⟩ 0 =
      { mouse_movement_rate := 0, mouse_click_rate := 0, key_press_rate := 0 } :=
  C10_rates_division_guarded ⟨7, 3, 5⟩ 0 (by norm_num)
